import Mathlib

/-!
Verification of the progress-estimation subsystem of the company-research
service: the token-keyed timestamp store, the incremental running-mean
duration tracker (`infrastructure.py`, class `Storage`), and the
progress-fraction endpoint (`app.py`, handlers `research_company` and
`progress`).

The shared Redis key-value store is modelled as a flat association list from
string keys to rational values: every value the program stores is numeric
(timestamps, the running mean under key "mean_time", the completed-request
count under key "request_count"), and the Redis client installs a float
response callback for GET, so every read comes back as a number. Python
floats are modelled as rationals.
-/

namespace CompanyResearch

/-- Redis keys. Tokens are stored under `str(key)`; the two metric keys are
the literals "mean_time" and "request_count". -/
abbrev Key := String

/-- The shared Redis keyspace: a map from string key to numeric value,
absent keys meaning no binding. GET/SET/DELETE below mirror the Redis
client operations used by `Storage`. -/
structure Store where
  data : List (Key × ℚ)
deriving DecidableEq, Repr

namespace Store

/-- Lookup in the underlying binding list. -/
def getList : List (Key × ℚ) → Key → Option ℚ
  | [], _ => none
  | (k2, v) :: rest, k => if k2 = k then some v else getList rest k

/-- Remove every binding for a key from the underlying binding list. -/
def eraseKey : List (Key × ℚ) → Key → List (Key × ℚ)
  | [], _ => []
  | (k2, v) :: rest, k =>
      if k2 = k then eraseKey rest k else (k2, v) :: eraseKey rest k

/-- Redis `GET key`: the value bound to `k`, or absent. -/
def get (s : Store) (k : Key) : Option ℚ :=
  getList s.data k

/-- Redis `SET key value`: bind `k` to `v`, overwriting any prior binding. -/
def set (s : Store) (k : Key) (v : ℚ) : Store :=
  ⟨(k, v) :: eraseKey s.data k⟩

/-- Redis `DELETE key`: drop any binding for `k`. -/
def del (s : Store) (k : Key) : Store :=
  ⟨eraseKey s.data k⟩

end Store

/-- A store with nothing recorded: no timestamps, no mean, no count. -/
def resetStore : Store := ⟨[]⟩

/-- Python `int()` applied to a float value: truncation toward zero. -/
def truncToInt (q : ℚ) : ℤ :=
  if 0 ≤ q then ⌊q⌋ else ⌈q⌉

-- Basic facts about the store primitives.

theorem getList_eraseKey_self (l : List (Key × ℚ)) (k : Key) :
    Store.getList (Store.eraseKey l k) k = none := by
  induction l with
  | nil => rfl
  | cons a l ih =>
    by_cases hak : a.1 = k
    · simp [Store.eraseKey, hak, ih]
    · simp [Store.eraseKey, Store.getList, hak, ih]

theorem getList_eraseKey_ne (l : List (Key × ℚ)) (k k2 : Key) (h : k2 ≠ k) :
    Store.getList (Store.eraseKey l k) k2 = Store.getList l k2 := by
  induction l with
  | nil => rfl
  | cons a l ih =>
    have hks : ¬ k = k2 := fun hc => h hc.symm
    by_cases hak : a.1 = k
    · have h2 : ¬ a.1 = k2 := fun hc => h (hc ▸ hak)
      simp [Store.eraseKey, Store.getList, hak, h2, hks, ih]
    · by_cases h2 : a.1 = k2
      · simp [Store.eraseKey, Store.getList, hak, h2, h]
      · simp [Store.eraseKey, Store.getList, hak, h2, ih]

theorem Store.get_set_self (s : Store) (k : Key) (v : ℚ) :
    (s.set k v).get k = some v := by
  simp [Store.get, Store.set, Store.getList]

theorem Store.get_set_ne (s : Store) (k k2 : Key) (v : ℚ) (h : k2 ≠ k) :
    (s.set k v).get k2 = s.get k2 := by
  have hk : ¬ k = k2 := fun hc => h hc.symm
  simp [Store.get, Store.set, Store.getList, hk, getList_eraseKey_ne s.data k k2 h]

theorem Store.get_del_self (s : Store) (k : Key) :
    (s.del k).get k = none := by
  simp [Store.get, Store.del, getList_eraseKey_self]

theorem Store.get_del_ne (s : Store) (k k2 : Key) (h : k2 ≠ k) :
    (s.del k).get k2 = s.get k2 := by
  simp [Store.get, Store.del, getList_eraseKey_ne s.data k k2 h]

-- The Storage operations of infrastructure.py.

/-- `Storage.save_timestamp(key)`: store the current wall-clock timestamp
(`now`, a parameter of the model) under the token key. -/
def save_timestamp (s : Store) (key : Key) (now : ℚ) : Store :=
  s.set key now

/-- `Storage.get_timestamp(key)`: the stored start timestamp, or absent. -/
def get_timestamp (s : Store) (key : Key) : Option ℚ :=
  s.get key

/-- `Storage.end_token(key)`: if a start timestamp is present, fold the
elapsed duration into the running mean (`mean_time or 0` yields 0 both for
an absent mean and for a stored 0.0, so `getD 0` is the exact translation;
`int(request_count)` is truncation of the float read), then store the new
mean and the incremented count; in every case finally delete the token key. -/
def end_token (s : Store) (key : Key) (now : ℚ) : Store :=
  match get_timestamp s key with
  | some start =>
      let duration : ℚ := now - start
      let request_count : ℤ :=
        match s.get "request_count" with
        | some rc => truncToInt rc
        | none => 0
      let mean_time : ℚ := (s.get "mean_time").getD 0
      let new_mean_time : ℚ :=
        (mean_time * request_count + duration) / (request_count + 1)
      (((s.set "mean_time" new_mean_time).set
          "request_count" ((request_count : ℚ) + 1)).del key)
  | none => s.del key

/-- `Storage.get_query_mean_time()`: the stored running mean, or the 10.0
default when the key is absent (an `is None` check in the source, so a
stored 0.0 is returned as 0.0, not replaced by the default). -/
def get_query_mean_time (s : Store) : ℚ :=
  (s.get "mean_time").getD 10

/-- The estimator update performed by lines 30-40 of `end_token` for a
completed duration, detached from the token bookkeeping: read the count
(absent means 0) and the mean (`or 0`), store the new weighted mean, then
store the incremented count. -/
def record (s : Store) (duration : ℚ) : Store :=
  let request_count : ℤ :=
    match s.get "request_count" with
    | some rc => truncToInt rc
    | none => 0
  let mean_time : ℚ := (s.get "mean_time").getD 0
  let new_mean_time : ℚ :=
    (mean_time * request_count + duration) / (request_count + 1)
  (s.set "mean_time" new_mean_time).set "request_count" ((request_count : ℚ) + 1)

/-- When a start timestamp is present, `end_token` is exactly the estimator
update for the elapsed duration followed by deletion of the token key. -/
theorem end_token_eq_record (s : Store) (key : Key) (now start : ℚ)
    (h : get_timestamp s key = some start) :
    end_token s key now = (record s (now - start)).del key := by
  unfold end_token record
  rw [h]

-- The /progress/{token} endpoint of app.py.

/-- Outcome of one call to the progress endpoint: a raised `HTTPException`
with its status code, an uncaught `ZeroDivisionError` from
`1 / mean_time`, or a returned numeric fraction. -/
inductive ProgressOutcome where
  | httpError (status : ℕ)
  | divisionError
  | ok (fraction : ℚ)
deriving DecidableEq, Repr

/-- Whether the outcome is a returned numeric fraction. -/
def ProgressOutcome.isNumeric : ProgressOutcome → Bool
  | .ok _ => true
  | _ => false

/-- The `progress(token)` handler: 500 when the token has no stored start;
202 while `beginning + mean_time > moment`; otherwise
`1 / mean_time * duration` — in Python a float division by zero raises
`ZeroDivisionError`, so the division branch is split on `mean_time = 0`. -/
def progress (s : Store) (token : Key) (now : ℚ) : ProgressOutcome :=
  match get_timestamp s token with
  | none => .httpError 500
  | some beginning =>
      let mean_time : ℚ := get_query_mean_time s
      if beginning + mean_time > now then .httpError 202
      else if mean_time = 0 then .divisionError
      else .ok (1 / mean_time * (now - beginning))

/-- The HTTP 4xx client-error status class; a "not-found-class" response
(404) lies in it. -/
def clientErrorClass (status : ℕ) : Prop :=
  400 ≤ status ∧ status < 500

/-- Whether a status code is exactly Not Found. -/
def notFoundClass (status : ℕ) : Bool :=
  status == 404

-- Evaluation lemmas for the estimator update.

theorem truncToInt_natCast (n : ℕ) : truncToInt (n : ℚ) = (n : ℤ) := by
  simp [truncToInt, Nat.cast_nonneg]

theorem record_eval (s : Store) (d : ℚ) (n : ℕ) (m : ℚ)
    (hc : s.get "request_count" = some (n : ℚ))
    (hm : s.get "mean_time" = some m) :
    record s d
      = (s.set "mean_time" ((m * n + d) / (n + 1))).set
          "request_count" ((n : ℚ) + 1) := by
  unfold record
  simp only [hc, hm, Option.getD_some, truncToInt_natCast]
  push_cast
  rfl

theorem record_eval_empty (s : Store) (d : ℚ)
    (hc : s.get "request_count" = none)
    (hm : s.get "mean_time" = none) :
    record s d = (s.set "mean_time" d).set "request_count" 1 := by
  unfold record
  rw [hc, hm]
  norm_num

theorem mean_ne_count : ("mean_time" : Key) ≠ "request_count" := by decide

theorem count_ne_mean : ("request_count" : Key) ≠ "mean_time" := by decide

/-- After the estimator update, reading back the two metric keys. -/
theorem record_get (s : Store) (d : ℚ) (n : ℕ) (m : ℚ)
    (hc : s.get "request_count" = some (n : ℚ))
    (hm : s.get "mean_time" = some m) :
    (record s d).get "request_count" = some ((n : ℚ) + 1)
      ∧ (record s d).get "mean_time" = some ((m * n + d) / (n + 1)) := by
  rw [record_eval s d n m hc hm]
  refine ⟨Store.get_set_self _ _ _, ?_⟩
  rw [Store.get_set_ne _ _ _ _ mean_ne_count, Store.get_set_self]

/-- Folding further durations into a store whose metric keys hold a count
`n ≥ 1` and mean `sum / n` yields count `n + ds.length` and mean
`(sum + ds.sum) / (n + ds.length)`. -/
theorem record_foldl (ds : List ℚ) :
    ∀ (n : ℕ) (sum : ℚ) (s : Store), n ≠ 0 →
      s.get "request_count" = some (n : ℚ) →
      s.get "mean_time" = some (sum / (n : ℚ)) →
      (ds.foldl record s).get "request_count"
          = some (((n + ds.length : ℕ) : ℚ))
        ∧ (ds.foldl record s).get "mean_time"
          = some ((sum + ds.sum) / ((n + ds.length : ℕ) : ℚ)) := by
  induction ds with
  | nil =>
    intro n sum s hn hc hm
    simpa using ⟨hc, hm⟩
  | cons d rest ih =>
    intro n sum s hn hc hm
    have hstep := record_get s d n (sum / (n : ℚ)) hc hm
    have hmean : sum / (n : ℚ) * n + d = sum + d := by
      rw [div_mul_cancel₀]
      exact_mod_cast hn
    rw [hmean] at hstep
    have hc2 : (record s d).get "request_count" = some (((n + 1 : ℕ) : ℚ)) := by
      rw [hstep.1]; push_cast; ring_nf
    have hm2 : (record s d).get "mean_time"
        = some ((sum + d) / ((n + 1 : ℕ) : ℚ)) := by
      rw [hstep.2]; push_cast; ring_nf
    have hres := ih (n + 1) (sum + d) (record s d) (Nat.succ_ne_zero n) hc2 hm2
    have hlen : n + 1 + rest.length = n + (d :: rest).length := by
      rw [List.length_cons]; omega
    have hsum : sum + d + rest.sum = sum + (d :: rest).sum := by
      rw [List.sum_cons]; ring
    constructor
    · rw [List.foldl_cons, hres.1, hlen]
    · rw [List.foldl_cons, hres.2, hlen, hsum]

-- Helper lemmas about end_token.

/-- After `end_token`, the token key itself is always gone: the delete is
unconditional and comes last. -/
theorem end_token_get_self (s : Store) (k : Key) (now : ℚ) :
    get_timestamp (end_token s k now) k = none := by
  cases h : get_timestamp s k with
  | none =>
    have hg : s.get k = none := h
    simp [end_token, get_timestamp, hg, Store.get_del_self]
  | some start =>
    have hg : s.get k = some start := h
    simp [end_token, get_timestamp, hg, Store.get_del_self]

/-- `end_token` on a token with no stored start is just the delete: the two
metric keys read back unchanged. -/
theorem end_token_absent (s : Store) (t : Key) (now : ℚ)
    (h : get_timestamp s t = none) :
    end_token s t now = s.del t
      ∧ (end_token s t now).get "mean_time" = s.get "mean_time"
      ∧ (end_token s t now).get "request_count" = s.get "request_count" := by
  have hget : s.get t = none := h
  have he : end_token s t now = s.del t := by
    unfold end_token
    rw [h]
  refine ⟨he, ?_, ?_⟩
  · rw [he]
    by_cases ht : ("mean_time" : Key) = t
    · subst ht
      rw [Store.get_del_self, hget]
    · exact Store.get_del_ne s t "mean_time" ht
  · rw [he]
    by_cases ht : ("request_count" : Key) = t
    · subst ht
      rw [Store.get_del_self, hget]
    · exact Store.get_del_ne s t "request_count" ht

/-- C1: starting from a reset store (no mean or count recorded), after
folding in the durations `d1, ..., dn` via the end-of-request update rule
`new_mean = (old_mean * n + duration) / (n + 1)`, for every n ≥ 1 the
stored running mean equals `(d1 + ... + dn) / n` and the stored
completed-request count equals `n`. -/
theorem running_mean_is_arithmetic_mean (ds : List ℚ) (h : ds ≠ []) :
    ((ds.foldl record resetStore).get "mean_time"
        = some (ds.sum / (ds.length : ℚ)))
      ∧ ((ds.foldl record resetStore).get "request_count"
        = some ((ds.length : ℕ) : ℚ)) := by
  cases ds with
  | nil => exact absurd rfl h
  | cons d rest =>
    have hstep := record_eval_empty resetStore d rfl rfl
    have hc2 : (record resetStore d).get "request_count"
        = some (((1 : ℕ) : ℚ)) := by
      rw [hstep]
      simpa using Store.get_set_self _ _ _
    have hm2 : (record resetStore d).get "mean_time"
        = some (d / ((1 : ℕ) : ℚ)) := by
      rw [hstep, Store.get_set_ne _ _ _ _ mean_ne_count, Store.get_set_self]
      norm_num
    have hres := record_foldl rest 1 d (record resetStore d)
      one_ne_zero hc2 hm2
    have hlen : 1 + rest.length = (d :: rest).length := by
      rw [List.length_cons]; omega
    have hsum : d + rest.sum = (d :: rest).sum := by
      rw [List.sum_cons]
    rw [hlen, hsum] at hres
    constructor
    · rw [List.foldl_cons]
      exact hres.2
    · rw [List.foldl_cons]
      exact hres.1

/-- Witness for C1 at the concrete duration list [2, 4]. -/
theorem running_mean_is_arithmetic_mean_witness :
    (([2, 4] : List ℚ) ≠ [])
      ∧ ((([2, 4] : List ℚ).foldl record resetStore).get "mean_time"
          = some (([2, 4] : List ℚ).sum / ((([2, 4] : List ℚ).length : ℕ) : ℚ)))
      ∧ ((([2, 4] : List ℚ).foldl record resetStore).get "request_count"
          = some (((([2, 4] : List ℚ).length : ℕ)) : ℚ)) :=
  ⟨by simp, running_mean_is_arithmetic_mean [2, 4] (by simp)⟩

/-- C3: with no completed request ever recorded (both metric keys absent),
`get_query_mean_time` returns exactly 10.0, while the first estimator
update treats the old mean as 0: the stored mean after recording the first
duration `d` is `d`, with the 10.0 default never folded in. -/
theorem cold_start_default (s : Store) (d : ℚ)
    (hm : s.get "mean_time" = none) (hc : s.get "request_count" = none) :
    get_query_mean_time s = 10 ∧ (record s d).get "mean_time" = some d := by
  constructor
  · unfold get_query_mean_time
    rw [hm]
    rfl
  · rw [record_eval_empty s d hc hm,
      Store.get_set_ne _ _ _ _ mean_ne_count, Store.get_set_self]

/-- Witness for C3 at the reset store and duration 7. -/
theorem cold_start_default_witness :
    (resetStore.get "mean_time" = none ∧ resetStore.get "request_count" = none)
      ∧ (get_query_mean_time resetStore = 10
          ∧ (record resetStore 7).get "mean_time" = some 7) :=
  ⟨⟨rfl, rfl⟩, cold_start_default resetStore 7 rfl rfl⟩

/-- C5: `end_token` on a token with no stored start timestamp leaves the
running mean and the completed-request count unchanged, still performs the
removal (it equals the plain delete), and leaves no record for the token. -/
theorem end_token_no_start_frame (s : Store) (t : Key) (now : ℚ)
    (h : get_timestamp s t = none) :
    end_token s t now = s.del t
      ∧ (end_token s t now).get "mean_time" = s.get "mean_time"
      ∧ (end_token s t now).get "request_count" = s.get "request_count"
      ∧ get_timestamp (end_token s t now) t = none := by
  obtain ⟨he, hmean, hcount⟩ := end_token_absent s t now h
  exact ⟨he, hmean, hcount, end_token_get_self s t now⟩

/-- A concrete store holding a mean of 4 over 2 completed requests and no
token records. -/
def storeMean4 : Store := ⟨[("mean_time", 4), ("request_count", 2)]⟩

/-- Witness for C5 at a concrete store with metrics but no record for the
token "tok". -/
theorem end_token_no_start_frame_witness :
    (get_timestamp storeMean4 "tok" = none)
      ∧ (end_token storeMean4 "tok" 9 = storeMean4.del "tok"
          ∧ (end_token storeMean4 "tok" 9).get "mean_time"
              = storeMean4.get "mean_time"
          ∧ (end_token storeMean4 "tok" 9).get "request_count"
              = storeMean4.get "request_count"
          ∧ get_timestamp (end_token storeMean4 "tok" 9) "tok" = none) :=
  ⟨rfl, end_token_no_start_frame storeMean4 "tok" 9 rfl⟩

/-- C6: after `begin(t)` followed by `end(t)`, `get_start(t)` is absent;
and a second consecutive `end(t)` does not change the stored mean or count
a second time (the duration is not double-counted). -/
theorem end_token_idempotent (s : Store) (t : Key) (tb te te2 : ℚ) :
    get_timestamp (end_token (save_timestamp s t tb) t te) t = none
      ∧ (end_token (end_token (save_timestamp s t tb) t te) t te2).get
            "mean_time"
          = (end_token (save_timestamp s t tb) t te).get "mean_time"
      ∧ (end_token (end_token (save_timestamp s t tb) t te) t te2).get
            "request_count"
          = (end_token (save_timestamp s t tb) t te).get "request_count" := by
  have h1 := end_token_get_self (save_timestamp s t tb) t te
  obtain ⟨-, hmean, hcount⟩ :=
    end_token_absent (end_token (save_timestamp s t tb) t te) t te2 h1
  exact ⟨h1, hmean, hcount⟩

-- Theorems about the progress endpoint.

/-- When the start timestamp is present, `progress` is the two-way branch
of app.py lines 179-191. -/
theorem progress_eval (s : Store) (t : Key) (now start : ℚ)
    (h : get_timestamp s t = some start) :
    progress s t now =
      (if start + get_query_mean_time s > now then ProgressOutcome.httpError 202
       else if get_query_mean_time s = 0 then ProgressOutcome.divisionError
       else ProgressOutcome.ok (1 / get_query_mean_time s * (now - start))) := by
  unfold progress
  rw [h]

/-- C2 (amended): with a start timestamp present, the in-progress signal
(HTTP 202) is raised exactly when `start + mean > now`; otherwise, when the
stored mean is nonzero the endpoint returns the numeric fraction
`(now - start) / mean` (which may exceed 1.0 without being an error), but
when the stored mean is zero the division fails instead of returning a
fraction. -/
theorem progress_branch_rule (s : Store) (t : Key) (now start : ℚ)
    (h : get_timestamp s t = some start) :
    (progress s t now = ProgressOutcome.httpError 202
        ↔ start + get_query_mean_time s > now)
      ∧ (start + get_query_mean_time s ≤ now → get_query_mean_time s ≠ 0 →
          progress s t now
            = ProgressOutcome.ok ((now - start) / get_query_mean_time s))
      ∧ (start + get_query_mean_time s ≤ now → get_query_mean_time s = 0 →
          progress s t now = ProgressOutcome.divisionError) := by
  rw [progress_eval s t now start h]
  refine ⟨⟨?_, ?_⟩, ?_, ?_⟩
  · intro hp
    by_cases hgt : start + get_query_mean_time s > now
    · exact hgt
    · rw [if_neg hgt] at hp
      by_cases hz : get_query_mean_time s = 0
      · rw [if_pos hz] at hp
        exact absurd hp (by simp)
      · rw [if_neg hz] at hp
        exact absurd hp (by simp)
  · intro hgt
    rw [if_pos hgt]
  · intro hle hz
    have hgt : ¬ start + get_query_mean_time s > now := not_lt.mpr hle
    rw [if_neg hgt, if_neg hz, one_div_mul_eq_div]
  · intro hle hz
    have hgt : ¬ start + get_query_mean_time s > now := not_lt.mpr hle
    rw [if_neg hgt, if_pos hz]

/-- The store reached by begin("a") at t=3, end("a") at t=3 (a completed
request of duration 0, driving the stored mean to 0), then begin("b") at
t=10. -/
def storeZeroMeanB : Store :=
  save_timestamp (end_token (save_timestamp resetStore "a" 3) "a" 3) "b" 10

/-- Counterexample to C2 as stated: for token "b" (start 10, present) at
now = 20, `start + mean > now` is false, yet the query does not return the
numeric fraction `elapsed / mean` — it fails with a division error. -/
theorem progress_numeric_branch_refuted :
    (progress storeZeroMeanB "b" 20).isNumeric = false
      ∧ progress storeZeroMeanB "b" 20 ≠ ProgressOutcome.httpError 202
      ∧ progress storeZeroMeanB "b" 20 = ProgressOutcome.divisionError
      ∧ get_timestamp storeZeroMeanB "b" = some 10 := by
  have h : progress storeZeroMeanB "b" 20 = ProgressOutcome.divisionError := by
    simp [storeZeroMeanB, progress, save_timestamp, end_token, get_timestamp,
      get_query_mean_time, record, truncToInt, Store.get, Store.set, Store.del,
      Store.getList, Store.eraseKey, resetStore] <;> norm_num
  rw [h]
  refine ⟨rfl, by simp, rfl, ?_⟩
  simp [storeZeroMeanB, save_timestamp, end_token, get_timestamp,
    Store.get, Store.set, Store.del, Store.getList, Store.eraseKey, resetStore]

/-- A concrete store: token "a" began at 0, two completed requests with
mean 4. -/
def storeMeanFour : Store :=
  ⟨[("a", 0), ("mean_time", 4), ("request_count", 2)]⟩

/-- Witness for the amended C2 at a store with mean 4, token "a" started
at 0, queried at now = 6 (past the expected mean). -/
theorem progress_branch_rule_witness :
    (get_timestamp storeMeanFour "a" = some 0)
      ∧ ((progress storeMeanFour "a" 6 = ProgressOutcome.httpError 202
            ↔ (0 : ℚ) + get_query_mean_time storeMeanFour > 6)
          ∧ ((0 : ℚ) + get_query_mean_time storeMeanFour ≤ 6 →
              get_query_mean_time storeMeanFour ≠ 0 →
              progress storeMeanFour "a" 6
                = ProgressOutcome.ok
                    ((6 - 0) / get_query_mean_time storeMeanFour))
          ∧ ((0 : ℚ) + get_query_mean_time storeMeanFour ≤ 6 →
              get_query_mean_time storeMeanFour = 0 →
              progress storeMeanFour "a" 6 = ProgressOutcome.divisionError)) :=
  ⟨rfl, progress_branch_rule storeMeanFour "a" 6 0 rfl⟩

/-- Counterexample to C4 as stated: for a token with no in-flight record
the endpoint raises HTTP 500, which is not a not-found-class (4xx/404)
error. -/
theorem token_unknown_not_found_refuted :
    progress resetStore "nope" 0 = ProgressOutcome.httpError 500
      ∧ ¬ clientErrorClass 500
      ∧ notFoundClass 500 = false := by
  refine ⟨rfl, ?_, rfl⟩
  simp [clientErrorClass]

/-- C4 (amended): a token with no in-flight record is signaled with an
HTTP 500 error (server-error class, not a not-found-class response), and
this signal occurs exactly in that case, so it is distinct from every
other outcome of the endpoint (202 in-progress, numeric result, division
failure). -/
theorem token_unknown_signal (s : Store) (t : Key) (now : ℚ) :
    progress s t now = ProgressOutcome.httpError 500
      ↔ get_timestamp s t = none := by
  constructor
  · intro hp
    cases h : get_timestamp s t with
    | none => rfl
    | some start =>
      rw [progress_eval s t now start h] at hp
      by_cases hgt : start + get_query_mean_time s > now
      · rw [if_pos hgt] at hp
        exact absurd hp (by simp)
      · rw [if_neg hgt] at hp
        by_cases hz : get_query_mean_time s = 0
        · rw [if_pos hz] at hp
          exact absurd hp (by simp)
        · rw [if_neg hz] at hp
          exact absurd hp (by simp)
  · intro h
    unfold progress
    rw [h]

/-- The store reached by begin("x") at t=7, end("x") at t=7 (stored mean
0, count 1), then begin("y") at t=0. -/
def storeZeroMeanY : Store :=
  save_timestamp (end_token (save_timestamp resetStore "x" 7) "x" 7) "y" 0

/-- Counterexample to C9 as stated: token "y" has start 0 ≤ now = 1 and the
stored mean is 0 (every completed duration was 0), yet the query neither
signals the in-progress condition nor returns a numeric fraction — the
division fails. -/
theorem progress_division_fails :
    (progress storeZeroMeanY "y" 1).isNumeric = false
      ∧ progress storeZeroMeanY "y" 1 ≠ ProgressOutcome.httpError 202
      ∧ progress storeZeroMeanY "y" 1 = ProgressOutcome.divisionError
      ∧ get_timestamp storeZeroMeanY "y" = some 0 := by
  have h : progress storeZeroMeanY "y" 1 = ProgressOutcome.divisionError := by
    simp [storeZeroMeanY, progress, save_timestamp, end_token, get_timestamp,
      get_query_mean_time, record, truncToInt, Store.get, Store.set, Store.del,
      Store.getList, Store.eraseKey, resetStore] <;> norm_num
  rw [h]
  refine ⟨rfl, by simp, rfl, ?_⟩
  simp [storeZeroMeanY, save_timestamp, end_token, get_timestamp,
    Store.get, Store.set, Store.del, Store.getList, Store.eraseKey, resetStore]

/-- C9 (amended): with a start timestamp present, the query fails with a
division error exactly when the stored mean is 0 and `start ≤ now`; when
the mean is nonzero the numeric branch is total — the query either signals
the in-progress condition or returns the numeric fraction. -/
theorem progress_division_characterised (s : Store) (t : Key) (now start : ℚ)
    (h : get_timestamp s t = some start) :
    (progress s t now = ProgressOutcome.divisionError
        ↔ (get_query_mean_time s = 0 ∧ start ≤ now))
      ∧ (get_query_mean_time s ≠ 0 →
          progress s t now = ProgressOutcome.httpError 202
            ∨ progress s t now
                = ProgressOutcome.ok ((now - start) / get_query_mean_time s)) := by
  rw [progress_eval s t now start h]
  constructor
  · constructor
    · intro hp
      by_cases hgt : start + get_query_mean_time s > now
      · rw [if_pos hgt] at hp
        exact absurd hp (by simp)
      · by_cases hz : get_query_mean_time s = 0
        · refine ⟨hz, ?_⟩
          have hle := not_lt.mp hgt
          rw [hz] at hle
          linarith
        · rw [if_neg hgt, if_neg hz] at hp
          exact absurd hp (by simp)
    · rintro ⟨hz, hle⟩
      have hgt : ¬ start + get_query_mean_time s > now := by
        rw [hz]
        simpa using hle
      rw [if_neg hgt, if_pos hz]
  · intro hz
    by_cases hgt : start + get_query_mean_time s > now
    · left
      rw [if_pos hgt]
    · right
      rw [if_neg hgt, if_neg hz, one_div_mul_eq_div]

/-- A concrete store: token "tok" began at 2, one completed request with
mean 5. -/
def storeMeanFive : Store :=
  ⟨[("tok", 2), ("mean_time", 5), ("request_count", 1)]⟩

/-- Witness for the amended C9 at a store with nonzero mean 5. -/
theorem progress_division_characterised_witness :
    (get_timestamp storeMeanFive "tok" = some 2)
      ∧ ((progress storeMeanFive "tok" 4 = ProgressOutcome.divisionError
            ↔ (get_query_mean_time storeMeanFive = 0 ∧ (2 : ℚ) ≤ 4))
          ∧ (get_query_mean_time storeMeanFive ≠ 0 →
              progress storeMeanFive "tok" 4 = ProgressOutcome.httpError 202
                ∨ progress storeMeanFive "tok" 4
                    = ProgressOutcome.ok
                        ((4 - 2) / get_query_mean_time storeMeanFive))) :=
  ⟨rfl, progress_division_characterised storeMeanFive "tok" 4 2 rfl⟩

/-- C10: whenever the progress endpoint returns a numeric fraction and the
stored running mean is positive, the fraction is at least 1.0. -/
theorem progress_fraction_at_least_one (s : Store) (t : Key) (now q : ℚ)
    (hok : progress s t now = ProgressOutcome.ok q)
    (hpos : 0 < get_query_mean_time s) : 1 ≤ q := by
  cases h : get_timestamp s t with
  | none =>
    have h5 : progress s t now = ProgressOutcome.httpError 500 := by
      unfold progress
      rw [h]
    rw [h5] at hok
    simp at hok
  | some start =>
    rw [progress_eval s t now start h] at hok
    by_cases hgt : start + get_query_mean_time s > now
    · rw [if_pos hgt] at hok
      exact absurd hok (by simp)
    · have hz : get_query_mean_time s ≠ 0 := ne_of_gt hpos
      rw [if_neg hgt, if_neg hz, ProgressOutcome.ok.injEq] at hok
      rw [← hok, one_div_mul_eq_div, one_le_div hpos]
      linarith [not_lt.mp hgt]

/-- A concrete store: token "t2" began at 0, one completed request with
mean 2. -/
def storeTwoMean : Store :=
  ⟨[("t2", 0), ("mean_time", 2), ("request_count", 1)]⟩

/-- Witness for C10: mean 2, start 0, now 5 yields the fraction 5/2 ≥ 1. -/
theorem progress_fraction_at_least_one_witness :
    (progress storeTwoMean "t2" 5 = ProgressOutcome.ok (5 / 2)
      ∧ 0 < get_query_mean_time storeTwoMean)
      ∧ 1 ≤ (5 / 2 : ℚ) :=
  ⟨⟨by simp [storeTwoMean, progress, get_timestamp, get_query_mean_time,
        Store.get, Store.getList] <;> norm_num,
    by simp [storeTwoMean, get_query_mean_time, Store.get, Store.getList]
        <;> norm_num⟩,
    progress_fraction_at_least_one storeTwoMean "t2" 5 (5 / 2)
      (by simp [storeTwoMean, progress, get_timestamp, get_query_mean_time,
        Store.get, Store.getList] <;> norm_num)
      (by simp [storeTwoMean, get_query_mean_time, Store.get, Store.getList]
        <;> norm_num)⟩

-- Fine-grained interleaving of the estimator update (claim C7).

/-- First read of the estimator update: `GET request_count` then `int()`,
absent meaning 0. -/
def recordReadCount (s : Store) : ℤ :=
  match s.get "request_count" with
  | some rc => truncToInt rc
  | none => 0

/-- Second read of the estimator update: `GET mean_time` with `or 0`. -/
def recordReadMean (s : Store) : ℚ :=
  (s.get "mean_time").getD 0

/-- First write of the estimator update: `SET mean_time new_mean_time`,
computed from the previously read count `rc` and mean `m`. -/
def recordWriteMean (s : Store) (rc : ℤ) (m d : ℚ) : Store :=
  s.set "mean_time" ((m * rc + d) / (rc + 1))

/-- Second write of the estimator update: `SET request_count rc + 1`,
computed from the previously read count `rc`. -/
def recordWriteCount (s : Store) (rc : ℤ) : Store :=
  s.set "request_count" ((rc : ℚ) + 1)

/-- One uninterrupted `record` is exactly the two reads followed by the
two writes. -/
theorem record_as_steps (s : Store) (d : ℚ) :
    record s d
      = recordWriteCount
          (recordWriteMean s (recordReadCount s) (recordReadMean s) d)
          (recordReadCount s) := rfl

/-- The interleaving of two concurrent `record(d)` calls from the reset
store in which both tasks perform their two reads before either task
writes: each Redis call is a suspension point, so this schedule is
admissible. Task 1 then writes its mean and count, and task 2 overwrites
both with values computed from its stale reads. -/
def lostUpdateRun (d : ℚ) : Store :=
  let rc1 := recordReadCount resetStore
  let m1 := recordReadMean resetStore
  let rc2 := recordReadCount resetStore
  let m2 := recordReadMean resetStore
  let s1 := recordWriteCount (recordWriteMean resetStore rc1 m1 d) rc1
  recordWriteCount (recordWriteMean s1 rc2 m2 d) rc2

/-- C7 is violated by the code: after two concurrent `record(5)` calls
interleaved as in `lostUpdateRun`, the stored count is 1, not 2 (one
update is lost), although two sequential calls do give count 2; moreover
between a task's mean write and its count write an observer reads the
updated mean next to the still-absent count, so the pair is not updated
atomically. -/
theorem record_lost_update :
    (lostUpdateRun 5).get "request_count" = some 1
      ∧ (lostUpdateRun 5).get "mean_time" = some 5
      ∧ (record (record resetStore 5) 5).get "request_count" = some 2
      ∧ (record (record resetStore 5) 5).get "mean_time" = some 5
      ∧ (recordWriteMean resetStore (recordReadCount resetStore)
            (recordReadMean resetStore) 5).get "mean_time" = some 5
      ∧ (recordWriteMean resetStore (recordReadCount resetStore)
            (recordReadMean resetStore) 5).get "request_count" = none := by
  refine ⟨?_, ?_, ?_, ?_, ?_, ?_⟩ <;>
    simp [lostUpdateRun, record, recordReadCount, recordReadMean,
      recordWriteMean, recordWriteCount, truncToInt, Store.get, Store.set,
      Store.del, Store.getList, Store.eraseKey, resetStore] <;> norm_num

-- The research_company handler of app.py (claim C8).

/-- Outcome of the outbound report-generation call inside the `try` block:
a well-formed 2xx response, a 2xx response with an unexpected shape, an
HTTP status error from `raise_for_status`, any other exception (network
error or the 90 s timeout), or cancellation of the task. -/
inductive CallOutcome where
  | success
  | badShape
  | statusError (code : ℕ)
  | exception
  | cancelled
deriving DecidableEq, Repr

/-- What the handler terminates with on each path: a returned report, a
raised `HTTPException` with its status code, or propagated cancellation. -/
inductive HandlerResult where
  | ok
  | httpError (status : ℕ)
  | cancelled
deriving DecidableEq, Repr

/-- The store operations the handler can perform. -/
inductive StoreOp where
  | save (t : Key) (time : ℚ)
  | endOp (t : Key) (time : ℚ)
deriving DecidableEq, Repr

/-- Effect of one store operation. -/
def applyOp (s : Store) : StoreOp → Store
  | .save t time => save_timestamp s t time
  | .endOp t time => end_token s t time

/-- Store operations performed by the `try` block: `save_timestamp` runs
first, before the outbound call, so it happens on every path regardless of
how the call turns out. -/
def tryBodyOps (t : Key) (tBegin : ℚ) (oc : CallOutcome) : List StoreOp :=
  match oc with
  | _ => [.save t tBegin]

/-- The handler result on each exit path of the `try` block: a report on
the good path, 500 for an unexpected response shape (the inner
`HTTPException` is caught by `except Exception` and re-raised as 500), 502
for a Gemini status error, 500 for any other exception, and propagated
cancellation. -/
def research_company_result (oc : CallOutcome) : HandlerResult :=
  match oc with
  | .success => .ok
  | .badShape => .httpError 500
  | .statusError _ => .httpError 502
  | .exception => .httpError 500
  | .cancelled => .cancelled

/-- All store operations of one handler run: Python's `finally` appends
`end_token` to the `try` block's operations on every exit path — normal
return, raised `HTTPException`, other exception, or cancellation. -/
def research_company_ops (t : Key) (tBegin tEnd : ℚ) (oc : CallOutcome) :
    List StoreOp :=
  tryBodyOps t tBegin oc ++ [.endOp t tEnd]

/-- The store after one handler run. -/
def research_company_run (s : Store) (t : Key) (tBegin tEnd : ℚ)
    (oc : CallOutcome) : Store :=
  (research_company_ops t tBegin tEnd oc).foldl applyOp s

/-- Recogniser for an `end_token` invocation on token `t`. -/
def isEndFor (t : Key) : StoreOp → Bool
  | .endOp u _ => u == t
  | _ => false

/-- C8: on every exit path of the handler — normal completion, upstream
error, timeout/exception, cancellation — `end_token` is invoked exactly
once for the request's token, and after the run the token's record is
gone from the store. -/
theorem end_token_exactly_once (s : Store) (t : Key) (tBegin tEnd : ℚ)
    (oc : CallOutcome) :
    (research_company_ops t tBegin tEnd oc).countP (isEndFor t) = 1
      ∧ get_timestamp (research_company_run s t tBegin tEnd oc) t = none := by
  constructor
  · cases oc <;>
      simp [research_company_ops, tryBodyOps, isEndFor, List.countP_append,
        List.countP_cons]
  · cases oc <;>
      exact end_token_get_self _ t tEnd

end CompanyResearch
